import Mathlib

set_option maxHeartbeats 1000000

namespace MainBot

/-!
Shallow embedding of the MainBot repository core: the SQLite-backed
activity store (`src/database.py`), the inactivity reminder scheduler
(`src/reminder_service.py`) and the OpenAI assistant run lifecycle
(`src/chatgpt_assistant.py`).

Timestamps are modelled as integers (minutes); the Python code stores
ISO-8601 strings whose lexicographic order agrees with chronological
order, so integer comparison is a faithful model of the `<` comparisons
in the SQL queries.
-/

/-- One row of the `dialogs` table. -/
structure DialogRow where
  user_id : Int
  username : String
  message : String
  role : String
  deriving DecidableEq, Repr

/-- One row of the `successful_dialogs` table. -/
structure SuccessfulDialogRow where
  user_id : Int
  username : String
  contact_info : String
  messages : String
  deriving DecidableEq, Repr

/-- One row of the `user_activity` table (PRIMARY KEY user_id). -/
structure ActivityRow where
  user_id : Int
  last_activity : Int
  first_reminder_sent : Bool
  second_reminder_sent : Bool
  deriving DecidableEq, Repr

/-- The persistent state managed by `Database` in `src/database.py`. -/
structure DBState where
  dialogs : List DialogRow
  successful_dialogs : List SuccessfulDialogRow
  user_activity : List ActivityRow
  deriving DecidableEq, Repr

/-- Database.update_user_activity: INSERT INTO user_activity ... ON CONFLICT(user_id)
DO UPDATE SET last_activity = excluded.last_activity, first_reminder_sent = 0,
second_reminder_sent = 0.  `now` models `datetime.now(timezone.utc)`. -/
def update_user_activity (db : DBState) (user_id : Int) (now : Int) : DBState :=
  if db.user_activity.any (fun r => r.user_id == user_id) then
    { db with user_activity := db.user_activity.map (fun r =>
        if r.user_id == user_id then
          { r with last_activity := now, first_reminder_sent := false,
                   second_reminder_sent := false }
        else r) }
  else
    { db with user_activity := db.user_activity ++ [⟨user_id, now, false, false⟩] }

/-- Database.save_message: INSERT INTO dialogs, then, if the role is "user",
call update_user_activity for that user. -/
def save_message (db : DBState) (user_id : Int) (username message role : String)
    (now : Int) : DBState :=
  let db1 : DBState := { db with dialogs := db.dialogs ++ [⟨user_id, username, message, role⟩] }
  if role == "user" then update_user_activity db1 user_id now else db1

/-- Database.save_successful_dialog: INSERT INTO successful_dialogs. -/
def save_successful_dialog (db : DBState) (user_id : Int)
    (username contact_info messages : String) : DBState :=
  { db with successful_dialogs :=
      db.successful_dialogs ++ [⟨user_id, username, contact_info, messages⟩] }

/-- Database.is_successful_dialog: SELECT 1 FROM successful_dialogs WHERE user_id = ? LIMIT 1. -/
def is_successful_dialog (db : DBState) (user_id : Int) : Bool :=
  db.successful_dialogs.any (fun sd => sd.user_id == user_id)

/-- Database.get_users_for_first_reminder: rows of user_activity with
last_activity < now - minutes, first_reminder_sent = 0 and no row in
successful_dialogs for the same user (LEFT JOIN ... IS NULL). -/
def get_users_for_first_reminder (db : DBState) (minutes now : Int) : List Int :=
  let time_threshold := now - minutes
  (db.user_activity.filter (fun ua =>
      decide (ua.last_activity < time_threshold)
        && ua.first_reminder_sent == false
        && !(db.successful_dialogs.any (fun sd => sd.user_id == ua.user_id)))).map
    (fun ua => ua.user_id)

/-- Database.get_users_for_second_reminder: rows of user_activity with
last_activity < now - minutes, first_reminder_sent = 1,
second_reminder_sent = 0 and no row in successful_dialogs for the user. -/
def get_users_for_second_reminder (db : DBState) (minutes now : Int) : List Int :=
  let time_threshold := now - minutes
  (db.user_activity.filter (fun ua =>
      decide (ua.last_activity < time_threshold)
        && ua.first_reminder_sent == true
        && ua.second_reminder_sent == false
        && !(db.successful_dialogs.any (fun sd => sd.user_id == ua.user_id)))).map
    (fun ua => ua.user_id)

/-- Database.mark_first_reminder_sent: UPDATE user_activity SET
first_reminder_sent = 1 WHERE user_id = ?. -/
def mark_first_reminder_sent (db : DBState) (user_id : Int) : DBState :=
  { db with user_activity := db.user_activity.map (fun r =>
      if r.user_id == user_id then { r with first_reminder_sent := true } else r) }

/-- Database.mark_second_reminder_sent: UPDATE user_activity SET
second_reminder_sent = 1 WHERE user_id = ?. -/
def mark_second_reminder_sent (db : DBState) (user_id : Int) : DBState :=
  { db with user_activity := db.user_activity.map (fun r =>
      if r.user_id == user_id then { r with second_reminder_sent := true } else r) }

/-- Observation helper: the activity row of a user (SELECT * FROM
user_activity WHERE user_id = ?). -/
def activityOf (db : DBState) (user_id : Int) : Option ActivityRow :=
  db.user_activity.find? (fun r => r.user_id == user_id)

lemma find?_map_keyed_ne (l : List ActivityRow) (u v : Int) (g : ActivityRow → ActivityRow)
    (hg : ∀ r, (g r).user_id = r.user_id) (hne : v ≠ u) :
    (l.map (fun r => if r.user_id == u then g r else r)).find? (fun r => r.user_id == v)
      = l.find? (fun r => r.user_id == v) := by
  induction l with
  | nil => rfl
  | cons r rest ih =>
    simp only [List.map_cons]
    by_cases hru : r.user_id = u
    · have hrv : ¬ r.user_id = v := fun h => hne (h ▸ hru)
      have h1 : (if r.user_id == u then g r else r) = g r := by simp [hru]
      rw [h1, List.find?_cons_of_neg _ (by simp [hg r, hrv]),
        List.find?_cons_of_neg _ (by simp [hrv])]
      exact ih
    · have h1 : (if r.user_id == u then g r else r) = r := by simp [hru]
      rw [h1]
      by_cases hrv : r.user_id = v
      · rw [List.find?_cons_of_pos _ (by simp [hrv]), List.find?_cons_of_pos _ (by simp [hrv])]
      · rw [List.find?_cons_of_neg _ (by simp [hrv]), List.find?_cons_of_neg _ (by simp [hrv])]
        exact ih

lemma find?_map_keyed_eq (l : List ActivityRow) (u : Int) (g : ActivityRow → ActivityRow)
    (hg : ∀ r, (g r).user_id = r.user_id) :
    (l.map (fun r => if r.user_id == u then g r else r)).find? (fun r => r.user_id == u)
      = (l.find? (fun r => r.user_id == u)).map g := by
  induction l with
  | nil => rfl
  | cons r rest ih =>
    simp only [List.map_cons]
    by_cases hru : r.user_id = u
    · have h1 : (if r.user_id == u then g r else r) = g r := by simp [hru]
      rw [h1, List.find?_cons_of_pos _ (by simp [hg r, hru]),
        List.find?_cons_of_pos _ (by simp [hru])]
      rfl
    · have h1 : (if r.user_id == u then g r else r) = r := by simp [hru]
      rw [h1, List.find?_cons_of_neg _ (by simp [hru]), List.find?_cons_of_neg _ (by simp [hru])]
      exact ih

lemma activityOf_update_user_activity (db : DBState) (uid now : Int) :
    activityOf (update_user_activity db uid now) uid
      = some ⟨uid, now, false, false⟩ := by
  unfold activityOf update_user_activity
  by_cases hany : db.user_activity.any (fun r => r.user_id == uid) = true
  · rw [if_pos hany]
    dsimp only
    rw [find?_map_keyed_eq db.user_activity uid (fun r => { r with last_activity := now, first_reminder_sent := false, second_reminder_sent := false }) (fun r => rfl)]
    rcases hsome : db.user_activity.find? (fun r => r.user_id == uid) with _ | r
    · rw [List.find?_eq_none] at hsome
      rw [List.any_eq_true] at hany
      obtain ⟨x, hx, hpx⟩ := hany
      exact absurd hpx (hsome x hx)
    · have := List.find?_some hsome
      have huid : r.user_id = uid := by simpa using this
      rw [hsome]
      simp [huid]
  · rw [if_neg hany]
    dsimp only
    rw [List.find?_append]
    have hnone : db.user_activity.find? (fun r => r.user_id == uid) = none := by
      rw [List.find?_eq_none]
      intro x hx hpx
      exact hany (List.any_eq_true.mpr ⟨x, hx, hpx⟩)
    simp [hnone]

/-- Claim C10: mark_first_reminder_sent updates only the first_reminder_sent
field of the given user's activity row, leaving last_activity,
second_reminder_sent, every other user's row, and the other tables
unchanged; mark_second_reminder_sent symmetrically updates only
second_reminder_sent. -/
theorem C10_mark_reminder_frame (db : DBState) (u : Int) :
    ((mark_first_reminder_sent db u).dialogs = db.dialogs
      ∧ (mark_first_reminder_sent db u).successful_dialogs = db.successful_dialogs
      ∧ activityOf (mark_first_reminder_sent db u) u
          = (activityOf db u).map (fun r => { r with first_reminder_sent := true })
      ∧ ∀ v, v ≠ u → activityOf (mark_first_reminder_sent db u) v = activityOf db v)
    ∧ ((mark_second_reminder_sent db u).dialogs = db.dialogs
      ∧ (mark_second_reminder_sent db u).successful_dialogs = db.successful_dialogs
      ∧ activityOf (mark_second_reminder_sent db u) u
          = (activityOf db u).map (fun r => { r with second_reminder_sent := true })
      ∧ ∀ v, v ≠ u → activityOf (mark_second_reminder_sent db u) v = activityOf db v) := by
  refine ⟨⟨rfl, rfl, ?_, ?_⟩, ⟨rfl, rfl, ?_, ?_⟩⟩
  · exact find?_map_keyed_eq _ _ _ (fun r => rfl)
  · intro v hv
    exact find?_map_keyed_ne _ _ _ _ (fun r => rfl) hv
  · exact find?_map_keyed_eq _ _ _ (fun r => rfl)
  · intro v hv
    exact find?_map_keyed_ne _ _ _ _ (fun r => rfl) hv

/-- Witness for C10 at a concrete database and user ids. -/
theorem C10_mark_reminder_frame_witness :
    activityOf (mark_first_reminder_sent
        ⟨[], [], [⟨1, 10, false, false⟩, ⟨2, 20, false, true⟩]⟩ 1) 2
      = activityOf ⟨[], [], [⟨1, 10, false, false⟩, ⟨2, 20, false, true⟩]⟩ 2 :=
  (C10_mark_reminder_frame ⟨[], [], [⟨1, 10, false, false⟩, ⟨2, 20, false, true⟩]⟩ 1).1.2.2.2
    2 (by decide)

/-- Claim C5: saving a message with role "user" refreshes the user's
last_activity to the current time and resets both reminder flags to false,
for all prior flag states (creating the row if absent); saving a message
with any other role leaves the user_activity table unchanged. -/
theorem C5_save_message_activity (db : DBState) (uid : Int)
    (username message : String) (now : Int) :
    activityOf (save_message db uid username message "user" now) uid
        = some ⟨uid, now, false, false⟩
    ∧ ∀ role : String, role ≠ "user" →
        (save_message db uid username message role now).user_activity
          = db.user_activity := by
  constructor
  · unfold save_message
    simp only [beq_self_eq_true, if_true]
    exact activityOf_update_user_activity _ uid now
  · intro role hrole
    unfold save_message
    simp [hrole]

/-- Witness for C5 at a concrete database, message and time. -/
theorem C5_save_message_activity_witness :
    activityOf (save_message ⟨[], [], [⟨7, 3, true, true⟩]⟩ 7 "alice" "hi" "user" 42) 7
      = some ⟨7, 42, false, false⟩ :=
  (C5_save_message_activity ⟨[], [], [⟨7, 3, true, true⟩]⟩ 7 "alice" "hi" 42).1

/-- Claim C3: with thresholds T1 < T2, a user inactive longer than T1 with
first_reminder_sent = false and no successful-dialog marker is returned by
the stage-1 query and not by the stage-2 query; a user inactive longer
than T2 with first_reminder_sent = true, second_reminder_sent = false and
no marker is returned by the stage-2 query only. -/
theorem C3_reminder_query_eligibility (db : DBState) (t1 t2 now : Int) (row : ActivityRow)
    (hnodup : (db.user_activity.map (fun r => r.user_id)).Nodup)
    (ht : t1 < t2) (hmem : row ∈ db.user_activity)
    (hmarker : is_successful_dialog db row.user_id = false) :
    (row.last_activity < now - t1 → row.first_reminder_sent = false →
      row.user_id ∈ get_users_for_first_reminder db t1 now
        ∧ row.user_id ∉ get_users_for_second_reminder db t2 now)
    ∧ (row.last_activity < now - t2 → row.first_reminder_sent = true →
        row.second_reminder_sent = false →
      row.user_id ∈ get_users_for_second_reminder db t2 now
        ∧ row.user_id ∉ get_users_for_first_reminder db t1 now) := by
  have hmarker' : db.successful_dialogs.any (fun sd => sd.user_id == row.user_id) = false := by
    simpa [is_successful_dialog] using hmarker
  have huniq : ∀ r ∈ db.user_activity, r.user_id = row.user_id → r = row :=
    fun r hr h => List.inj_on_of_nodup_map hnodup hr hmem h
  constructor
  · intro hlate hfirst
    constructor
    · unfold get_users_for_first_reminder
      refine List.mem_map.mpr ⟨row, List.mem_filter.mpr ⟨hmem, ?_⟩, rfl⟩
      simp [hlate, hfirst, hmarker']
    · unfold get_users_for_second_reminder
      intro hcontra
      obtain ⟨r, hr, hru⟩ := List.mem_map.mp hcontra
      obtain ⟨hrmem, hcond⟩ := List.mem_filter.mp hr
      have hreq : r = row := huniq r hrmem hru
      subst hreq
      simp [hfirst] at hcond
  · intro hlate hfirst hsecond
    constructor
    · unfold get_users_for_second_reminder
      refine List.mem_map.mpr ⟨row, List.mem_filter.mpr ⟨hmem, ?_⟩, rfl⟩
      simp [hlate, hfirst, hsecond, hmarker']
    · unfold get_users_for_first_reminder
      intro hcontra
      obtain ⟨r, hr, hru⟩ := List.mem_map.mp hcontra
      obtain ⟨hrmem, hcond⟩ := List.mem_filter.mp hr
      have hreq : r = row := huniq r hrmem hru
      subst hreq
      simp [hfirst] at hcond

/-- Witness for C3: a user 31 minutes inactive against thresholds 30 and 60
is selected by stage 1 only; one 61 minutes inactive with the first flag set
is selected by stage 2 only. -/
theorem C3_reminder_query_eligibility_witness :
    (1 ∈ get_users_for_first_reminder
        ⟨[], [], [⟨1, 69, false, false⟩, ⟨2, 39, true, false⟩]⟩ 30 100
      ∧ 1 ∉ get_users_for_second_reminder
        ⟨[], [], [⟨1, 69, false, false⟩, ⟨2, 39, true, false⟩]⟩ 60 100)
    ∧ (2 ∈ get_users_for_second_reminder
        ⟨[], [], [⟨1, 69, false, false⟩, ⟨2, 39, true, false⟩]⟩ 60 100
      ∧ 2 ∉ get_users_for_first_reminder
        ⟨[], [], [⟨1, 69, false, false⟩, ⟨2, 39, true, false⟩]⟩ 30 100) :=
  ⟨(C3_reminder_query_eligibility ⟨[], [], [⟨1, 69, false, false⟩, ⟨2, 39, true, false⟩]⟩
      30 60 100 ⟨1, 69, false, false⟩ (by decide) (by decide) (by decide) (by decide)).1
      (by decide) (by decide),
    (C3_reminder_query_eligibility ⟨[], [], [⟨1, 69, false, false⟩, ⟨2, 39, true, false⟩]⟩
      30 60 100 ⟨2, 39, true, false⟩ (by decide) (by decide) (by decide) (by decide)).2
      (by decide) (by decide) (by decide)⟩

/-! Model of `src/reminder_service.py`.  Remote collaborators (the
Telegram thread map, ChatGPT response generation, Telegram message
delivery) are oracles in `ScanEnv`; `none`/`false` outcomes model the
exceptions those calls can raise.  aiosqlite operations are modelled as
total. -/

/-- A reminder actually delivered to a user during a scan (the
`telegram_bot.bot.send_message` call in `_send_reminder`). -/
structure SendRecord where
  user_id : Int
  reminder_type : String
  prompt : String
  text : String
  deriving DecidableEq, Repr

/-- Replace every occurrence of the placeholder `\x7bminutes\x7d`
(recognised by Python str.format in the reminder prompt templates) by the
given characters. -/
def substMinutes (minutes : List Char) : List Char → List Char
  | '\x7b' :: 'm' :: 'i' :: 'n' :: 'u' :: 't' :: 'e' :: 's' :: '\x7d' :: rest =>
      minutes ++ substMinutes minutes rest
  | c :: rest => c :: substMinutes minutes rest
  | [] => []

/-- Python `template.format(minutes=m)` for templates whose only
placeholder is `\x7bminutes\x7d`. -/
def formatMinutes (template : String) (minutes : Int) : String :=
  ⟨substMinutes (toString minutes).data template.data⟩

/-- The environment of one reminder scan: the bot's thread map, the
ChatGPT/Telegram oracles, the usernames cache, the configured thresholds
and prompt templates, and the current time. -/
structure ScanEnv where
  threads : Int → Option String
  get_response : Int → Option String
  send_message_ok : Int → Bool
  usernames : Int → Option String
  first_reminder_time : Int
  second_reminder_time : Int
  first_reminder_prompt : String
  second_reminder_prompt : String
  now : Int

/-- ReminderService._send_reminder: resolve the user's thread id (warn and
return when missing), build the stage prompt via `str.format`, call
ChatGPTAssistant.get_response, deliver the response over Telegram, then
save it with role "assistant".  The whole body is wrapped in
try/except, so a failing oracle yields no send and no state change. -/
def send_reminder (env : ScanEnv) (db : DBState) (user_id : Int)
    (reminder_type : String) (inactive_minutes : Int) : DBState × List SendRecord :=
  match env.threads user_id with
  | none => (db, [])
  | some _thread_id =>
    let prompt_template :=
      if reminder_type == "first" then env.first_reminder_prompt
      else env.second_reminder_prompt
    let prompt := formatMinutes prompt_template inactive_minutes
    match env.get_response user_id with
    | none => (db, [])
    | some response =>
      if env.send_message_ok user_id then
        let username := (env.usernames user_id).getD (toString user_id)
        (save_message db user_id username response "assistant" env.now,
          [⟨user_id, reminder_type, prompt, response⟩])
      else (db, [])

/-- The stage-1 loop of ReminderService._check_and_send_reminders: for each
candidate, re-check is_successful_dialog and skip if set; otherwise call
_send_reminder and then (unconditionally) mark_first_reminder_sent. -/
def process_first_candidates (env : ScanEnv) :
    List Int → DBState → DBState × List SendRecord
  | [], db => (db, [])
  | user_id :: rest, db =>
    if is_successful_dialog db user_id then
      process_first_candidates env rest db
    else
      let step := send_reminder env db user_id "first" env.first_reminder_time
      let db2 := mark_first_reminder_sent step.1 user_id
      let restres := process_first_candidates env rest db2
      (restres.1, step.2 ++ restres.2)

/-- The stage-2 loop of ReminderService._check_and_send_reminders. -/
def process_second_candidates (env : ScanEnv) :
    List Int → DBState → DBState × List SendRecord
  | [], db => (db, [])
  | user_id :: rest, db =>
    if is_successful_dialog db user_id then
      process_second_candidates env rest db
    else
      let step := send_reminder env db user_id "second" env.second_reminder_time
      let db2 := mark_second_reminder_sent step.1 user_id
      let restres := process_second_candidates env rest db2
      (restres.1, step.2 ++ restres.2)

/-- ReminderService._check_and_send_reminders: query and process the
stage-1 candidates, then query (against the updated state) and process the
stage-2 candidates. -/
def check_and_send_reminders (env : ScanEnv) (db : DBState) :
    DBState × List SendRecord :=
  let firstUsers := get_users_for_first_reminder db env.first_reminder_time env.now
  let res1 := process_first_candidates env firstUsers db
  let secondUsers := get_users_for_second_reminder res1.1 env.second_reminder_time env.now
  let res2 := process_second_candidates env secondUsers res1.1
  (res2.1, res1.2 ++ res2.2)

/-- The events that mutate the store over the bot's lifetime: an inbound
user message, an outbound assistant message, a contact-capture marker
write, or one reminder scan. -/
inductive BotEvent where
  | inbound (user_id : Int) (username text : String) (now : Int)
  | outbound (user_id : Int) (username text : String) (now : Int)
  | contact_captured (user_id : Int) (username contact_info messages : String)
  | scan (env : ScanEnv)

/-- One step of the system: apply a `BotEvent` to the store. -/
def stepEvent (db : DBState) : BotEvent → DBState × List SendRecord
  | .inbound u un t now => (save_message db u un t "user" now, [])
  | .outbound u un t now => (save_message db u un t "assistant" now, [])
  | .contact_captured u un c m => (save_successful_dialog db u un c m, [])
  | .scan env => check_and_send_reminders env db

/-- A trace of the system: fold `stepEvent` over a list of events,
collecting every reminder delivered along the way. -/
def runEvents (db : DBState) : List BotEvent → DBState × List SendRecord
  | [] => (db, [])
  | e :: rest =>
    let r1 := stepEvent db e
    let r2 := runEvents r1.1 rest
    (r2.1, r1.2 ++ r2.2)

lemma save_message_successful_dialogs (db : DBState) (uid : Int)
    (un m role : String) (now : Int) :
    (save_message db uid un m role now).successful_dialogs = db.successful_dialogs := by
  unfold save_message update_user_activity
  dsimp only
  split
  · split <;> rfl
  · rfl

lemma send_reminder_successful_dialogs (env : ScanEnv) (db : DBState) (v : Int)
    (rt : String) (m : Int) :
    (send_reminder env db v rt m).1.successful_dialogs = db.successful_dialogs := by
  unfold send_reminder
  rcases env.threads v with _ | t
  · rfl
  · dsimp only
    rcases env.get_response v with _ | resp
    · rfl
    · dsimp only
      split
      · exact save_message_successful_dialogs ..
      · rfl

lemma send_reminder_records (env : ScanEnv) (db : DBState) (v : Int)
    (rt : String) (m : Int) :
    ∀ r ∈ (send_reminder env db v rt m).2, r.user_id = v := by
  unfold send_reminder
  rcases env.threads v with _ | t
  · intro r hr
    exact absurd hr (List.not_mem_nil r)
  · dsimp only
    rcases env.get_response v with _ | resp
    · intro r hr
      exact absurd hr (List.not_mem_nil r)
    · dsimp only
      split
      · intro r hr
        rcases List.mem_singleton.mp hr with rfl
        rfl
      · intro r hr
        exact absurd hr (List.not_mem_nil r)

lemma mark_first_successful_dialogs (db : DBState) (v : Int) :
    (mark_first_reminder_sent db v).successful_dialogs = db.successful_dialogs := rfl

lemma mark_second_successful_dialogs (db : DBState) (v : Int) :
    (mark_second_reminder_sent db v).successful_dialogs = db.successful_dialogs := rfl

lemma process_first_candidates_marker (env : ScanEnv) (u : Int) :
    ∀ (cands : List Int) (db : DBState), is_successful_dialog db u = true →
      is_successful_dialog (process_first_candidates env cands db).1 u = true
        ∧ ∀ r ∈ (process_first_candidates env cands db).2, r.user_id ≠ u := by
  intro cands
  induction cands with
  | nil =>
    intro db h
    exact ⟨h, fun r hr => absurd hr (List.not_mem_nil r)⟩
  | cons v rest ih =>
    intro db h
    unfold process_first_candidates
    by_cases hv : is_successful_dialog db v = true
    · rw [if_pos hv]
      exact ih db h
    · rw [if_neg hv]
      dsimp only
      have hvu : v ≠ u := fun he => hv (he ▸ h)
      have hpres : is_successful_dialog
          (mark_first_reminder_sent (send_reminder env db v "first" env.first_reminder_time).1 v) u = true := by
        unfold is_successful_dialog
        rw [mark_first_successful_dialogs, send_reminder_successful_dialogs]
        exact h
      obtain ⟨ih1, ih2⟩ := ih _ hpres
      refine ⟨ih1, ?_⟩
      intro r hr
      rcases List.mem_append.mp hr with hr1 | hr2
      · rw [send_reminder_records env db v "first" env.first_reminder_time r hr1]
        exact hvu
      · exact ih2 r hr2

lemma process_second_candidates_marker (env : ScanEnv) (u : Int) :
    ∀ (cands : List Int) (db : DBState), is_successful_dialog db u = true →
      is_successful_dialog (process_second_candidates env cands db).1 u = true
        ∧ ∀ r ∈ (process_second_candidates env cands db).2, r.user_id ≠ u := by
  intro cands
  induction cands with
  | nil =>
    intro db h
    exact ⟨h, fun r hr => absurd hr (List.not_mem_nil r)⟩
  | cons v rest ih =>
    intro db h
    unfold process_second_candidates
    by_cases hv : is_successful_dialog db v = true
    · rw [if_pos hv]
      exact ih db h
    · rw [if_neg hv]
      dsimp only
      have hvu : v ≠ u := fun he => hv (he ▸ h)
      have hpres : is_successful_dialog
          (mark_second_reminder_sent (send_reminder env db v "second" env.second_reminder_time).1 v) u = true := by
        unfold is_successful_dialog
        rw [mark_second_successful_dialogs, send_reminder_successful_dialogs]
        exact h
      obtain ⟨ih1, ih2⟩ := ih _ hpres
      refine ⟨ih1, ?_⟩
      intro r hr
      rcases List.mem_append.mp hr with hr1 | hr2
      · rw [send_reminder_records env db v "second" env.second_reminder_time r hr1]
        exact hvu
      · exact ih2 r hr2

lemma check_and_send_reminders_marker (env : ScanEnv) (db : DBState) (u : Int)
    (h : is_successful_dialog db u = true) :
    is_successful_dialog (check_and_send_reminders env db).1 u = true
      ∧ ∀ r ∈ (check_and_send_reminders env db).2, r.user_id ≠ u := by
  unfold check_and_send_reminders
  dsimp only
  obtain ⟨h1, hr1⟩ := process_first_candidates_marker env u
    (get_users_for_first_reminder db env.first_reminder_time env.now) db h
  obtain ⟨h2, hr2⟩ := process_second_candidates_marker env u _ _ h1
  refine ⟨h2, ?_⟩
  intro r hr
  rcases List.mem_append.mp hr with hra | hrb
  · exact hr1 r hra
  · exact hr2 r hrb

lemma stepEvent_marker (db : DBState) (e : BotEvent) (u : Int)
    (h : is_successful_dialog db u = true) :
    is_successful_dialog (stepEvent db e).1 u = true
      ∧ ∀ r ∈ (stepEvent db e).2, r.user_id ≠ u := by
  cases e with
  | inbound v un t now =>
    refine ⟨?_, fun r hr => absurd hr (List.not_mem_nil r)⟩
    unfold is_successful_dialog at *
    rw [show (stepEvent db (.inbound v un t now)).1 = save_message db v un t "user" now from rfl,
      save_message_successful_dialogs]
    exact h
  | outbound v un t now =>
    refine ⟨?_, fun r hr => absurd hr (List.not_mem_nil r)⟩
    unfold is_successful_dialog at *
    rw [show (stepEvent db (.outbound v un t now)).1 = save_message db v un t "assistant" now from rfl,
      save_message_successful_dialogs]
    exact h
  | contact_captured v un c m =>
    refine ⟨?_, fun r hr => absurd hr (List.not_mem_nil r)⟩
    unfold is_successful_dialog at *
    unfold stepEvent save_successful_dialog
    dsimp only
    rw [List.any_append]
    rw [h]
    rfl
  | scan env => exact check_and_send_reminders_marker env db u h

/-- Claim C4: once a SuccessfulDialogMarker exists for a user, no reminder
of either stage is ever delivered to that user in any subsequent trace of
the system, regardless of inactivity durations or reminder-flag values. -/
theorem C4_marker_suppresses_reminders (db : DBState) (u : Int)
    (h : is_successful_dialog db u = true) (events : List BotEvent) :
    ∀ r ∈ (runEvents db events).2, r.user_id ≠ u := by
  induction events generalizing db with
  | nil =>
    intro r hr
    exact absurd hr (List.not_mem_nil r)
  | cons e rest ih =>
    intro r hr
    unfold runEvents at hr
    dsimp only at hr
    obtain ⟨h1, hrec1⟩ := stepEvent_marker db e u h
    rcases List.mem_append.mp hr with hra | hrb
    · exact hrec1 r hra
    · exact ih _ h1 r hrb

/-- Witness for C4: user 1 has a marker; a scan in which user 2 receives a
stage-1 reminder delivers nothing to user 1. -/
theorem C4_marker_suppresses_reminders_witness :
    (SendRecord.user_id ⟨2, "first", "p 30", "hello"⟩ ≠ 1) :=
  C4_marker_suppresses_reminders
    ⟨[], [⟨1, "bob", "ci", "ms"⟩], [⟨1, 0, false, false⟩, ⟨2, 0, false, false⟩]⟩ 1
    (by decide)
    [.scan ⟨fun _ => some "t", fun _ => some "hello", fun _ => true, fun _ => none,
      30, 60, "p {minutes}", "q {minutes}", 100⟩]
    ⟨2, "first", "p 30", "hello"⟩
    (by decide)

/-- Claim C2 evaluated at the failing input: one stage-1 candidate (user 1,
inactive since time 0, scan at time 100, thresholds 30/60) whose thread id
is missing, so every _send_reminder attempt fails and is swallowed.  The
scan delivers no reminder at all, yet both reminder flags end up true,
because _check_and_send_reminders calls mark_first_reminder_sent and
mark_second_reminder_sent unconditionally after _send_reminder returns.
The repository's own unit tests (test_send_reminder_chatgpt_error,
test_send_reminder_telegram_error, test_send_reminder_save_message_error)
assert that the flag must not be set in this situation. -/
theorem C2_flag_set_despite_failure :
    (check_and_send_reminders
        ⟨fun _ => none, fun _ => none, fun _ => false, fun _ => none, 30, 60, "p", "q", 100⟩
        ⟨[], [], [⟨1, 0, false, false⟩]⟩).2 = []
    ∧ activityOf (check_and_send_reminders
        ⟨fun _ => none, fun _ => none, fun _ => false, fun _ => none, 30, 60, "p", "q", 100⟩
        ⟨[], [], [⟨1, 0, false, false⟩]⟩).1 1 = some ⟨1, 0, true, true⟩ := by
  decide

/-- Counterexample to claim C6: user 1 is inactive 31 minutes against a
30-minute stage-1 threshold (last activity 69, scan at 100).  The prompt
actually passed to get_response substitutes the configured threshold
"30", not the elapsed duration "31": _check_and_send_reminders passes
`inactive_minutes=first_reminder_time` to _send_reminder. -/
theorem C6_counterexample :
    ((check_and_send_reminders
        ⟨fun _ => some "t", fun _ => some "ok", fun _ => true, fun _ => none,
          30, 60, "Reminder after {minutes} minutes", "q", 100⟩
        ⟨[], [], [⟨1, 69, false, false⟩]⟩).2.map (fun r => r.prompt)
      = ["Reminder after 30 minutes"])
    ∧ formatMinutes "Reminder after {minutes} minutes" (100 - 69)
        = "Reminder after 31 minutes"
    ∧ ("Reminder after 30 minutes" : String) ≠ "Reminder after 31 minutes" := by
  decide

/-- Claim C6 as amended: when a scan selects a user for stage 1, the
synthetic prompt is the stage-1 template with the minutes placeholder
substituted by the configured stage-1 threshold (not the elapsed
inactivity), and after a successful send first_reminder_sent is set true
while second_reminder_sent stays false. -/
theorem C6_first_reminder_prompt_and_flags (env : ScanEnv) (dlg : List DialogRow)
    (sdlg : List SuccessfulDialogRow) (uid last : Int) (t resp : String)
    (hmarker : (sdlg.any fun sd => sd.user_id == uid) = false)
    (h1 : last < env.now - env.first_reminder_time)
    (h2 : ¬ last < env.now - env.second_reminder_time)
    (hthread : env.threads uid = some t)
    (hresp : env.get_response uid = some resp)
    (hsend : env.send_message_ok uid = true) :
    (check_and_send_reminders env ⟨dlg, sdlg, [⟨uid, last, false, false⟩]⟩).2
      = [⟨uid, "first", formatMinutes env.first_reminder_prompt env.first_reminder_time, resp⟩]
    ∧ activityOf (check_and_send_reminders env ⟨dlg, sdlg, [⟨uid, last, false, false⟩]⟩).1 uid
      = some ⟨uid, last, true, false⟩ := by
  simp [check_and_send_reminders, get_users_for_first_reminder,
    get_users_for_second_reminder, process_first_candidates,
    process_second_candidates, send_reminder, is_successful_dialog,
    save_message, update_user_activity, mark_first_reminder_sent,
    mark_second_reminder_sent, activityOf, hmarker, h1, h2, hthread, hresp, hsend]

/-- Witness for C6 as amended: the spec's example scenario with the
threshold substituted (user inactive 31 minutes, threshold 30). -/
theorem C6_first_reminder_prompt_and_flags_witness :
    (check_and_send_reminders
        ⟨fun _ => some "t", fun _ => some "ok", fun _ => true, fun _ => none,
          30, 60, "Reminder after {minutes} minutes", "q", 100⟩
        ⟨[], [], [⟨1, 69, false, false⟩]⟩).2
      = [⟨1, "first",
          formatMinutes "Reminder after {minutes} minutes" 30, "ok"⟩]
    ∧ activityOf (check_and_send_reminders
        ⟨fun _ => some "t", fun _ => some "ok", fun _ => true, fun _ => none,
          30, 60, "Reminder after {minutes} minutes", "q", 100⟩
        ⟨[], [], [⟨1, 69, false, false⟩]⟩).1 1 = some ⟨1, 69, true, false⟩ :=
  C6_first_reminder_prompt_and_flags
    ⟨fun _ => some "t", fun _ => some "ok", fun _ => true, fun _ => none,
      30, 60, "Reminder after {minutes} minutes", "q", 100⟩
    [] [] 1 69 "t" "ok" (by decide) (by decide) (by decide) rfl rfl rfl

/-! Model of ChatGPTAssistant.get_assistant_response
(`src/chatgpt_assistant.py`): fetch the newest assistant message from the
thread and post-process it with three regex substitutions.  The three
Python regexes are embedded as recursive character-list functions with
exactly the semantics of `re.sub` for those patterns: leftmost match,
non-greedy where the pattern is non-greedy, `.` not matching a newline,
replacements not rescanned. -/

/-- Scan for the closing citation bracket: the regex `【.*?】` closes at the
first `】`, and fails if a newline (not matched by `.`) comes first.
Returns the characters after the closing bracket. -/
def findCitationClose : List Char → Option (List Char)
  | [] => none
  | c :: rest =>
    if c == '】' then some rest
    else if c == '\n' then none
    else findCitationClose rest

lemma findCitationClose_length :
    ∀ (l l2 : List Char), findCitationClose l = some l2 → l2.length < l.length := by
  intro l
  induction l with
  | nil => intro l2 h; cases h
  | cons c rest ih =>
    intro l2 h
    unfold findCitationClose at h
    by_cases hc : c == '】'
    · rw [if_pos hc] at h
      cases h
      exact Nat.lt_succ_self _
    · rw [if_neg hc] at h
      by_cases hn : c == '\n'
      · rw [if_pos hn] at h
        cases h
      · rw [if_neg hn] at h
        exact Nat.lt_trans (ih l2 h) (Nat.lt_succ_self _)

/-- `re.sub(r"【.*?】", "", response)`: repeatedly delete the leftmost
citation marker pair; an unclosed `【` is kept verbatim. -/
def stripCitations : List Char → List Char
  | [] => []
  | c :: rest =>
    if c == '【' then
      match h : findCitationClose rest with
      | some rest2 => stripCitations rest2
      | none => c :: stripCitations rest
    else c :: stripCitations rest
termination_by l => l.length
decreasing_by
  · exact Nat.lt_trans (findCitationClose_length rest rest2 h) (Nat.lt_succ_self _)
  · exact Nat.lt_succ_self _
  · exact Nat.lt_succ_self _

/-- Scan for the closing `**` of the regex `\*\*(.*?)\*\*`: non-greedy, so
the content ends at the first later `**`; `.` does not match a newline.
Returns the content and the characters after the closing `**`. -/
def findBoldClose : List Char → Option (List Char × List Char)
  | [] => none
  | [_] => none
  | c1 :: c2 :: rest =>
    if c1 == '*' && c2 == '*' then some ([], rest)
    else if c1 == '\n' then none
    else
      match findBoldClose (c2 :: rest) with
      | some (content, rest2) => some (c1 :: content, rest2)
      | none => none

lemma findBoldClose_length :
    ∀ (l content rest2 : List Char), findBoldClose l = some (content, rest2) →
      rest2.length + 2 ≤ l.length := by
  intro l
  induction l with
  | nil => intro content rest2 h; cases h
  | cons c1 tail ih =>
    intro content rest2 h
    cases tail with
    | nil => cases h
    | cons c2 rest =>
      unfold findBoldClose at h
      by_cases hstar : c1 == '*' && c2 == '*'
      · rw [if_pos hstar] at h
        cases h
        simp
      · rw [if_neg hstar] at h
        by_cases hn : c1 == '\n'
        · rw [if_pos hn] at h
          cases h
        · rw [if_neg hn] at h
          rcases hrec : findBoldClose (c2 :: rest) with _ | ⟨content2, rest3⟩
          · rw [hrec] at h
            cases h
          · rw [hrec] at h
            cases h
            exact Nat.le_trans (ih content2 rest2 hrec) (Nat.le_succ _)

/-- `re.sub(r"\*\*(.*?)\*\*", r"<b>\1</b>", response)`: convert the
leftmost double-star span to HTML bold tags; an unclosed `**` is kept. -/
def convertBold : List Char → List Char
  | [] => []
  | [c] => [c]
  | c1 :: c2 :: rest =>
    if c1 == '*' && c2 == '*' then
      match h : findBoldClose rest with
      | some (content, rest2) =>
          '<' :: 'b' :: '>' :: (content ++ '<' :: '/' :: 'b' :: '>' :: convertBold rest2)
      | none => c1 :: convertBold (c2 :: rest)
    else c1 :: convertBold (c2 :: rest)
termination_by l => l.length
decreasing_by
  · have := findBoldClose_length rest content rest2 h
    simp only [List.length_cons]
    omega
  · simp
  · simp

/-- The character class `[^X]+` followed by the literal `X`: collect the
(possibly empty here; emptiness is checked by the caller) run of
characters before the first `stop`, failing if `stop` never occurs. -/
def takeUntilChar (stop : Char) : List Char → Option (List Char × List Char)
  | [] => none
  | c :: rest =>
    if c == stop then some ([], rest)
    else
      match takeUntilChar stop rest with
      | some (pre, post) => some (c :: pre, post)
      | none => none

lemma takeUntilChar_length :
    ∀ (stop : Char) (l pre post : List Char), takeUntilChar stop l = some (pre, post) →
      pre.length + 1 + post.length = l.length := by
  intro stop l
  induction l with
  | nil => intro pre post h; cases h
  | cons c rest ih =>
    intro pre post h
    unfold takeUntilChar at h
    by_cases hc : c == stop
    · rw [if_pos hc] at h
      cases h
      simp only [List.length_nil, List.length_cons]
      omega
    · rw [if_neg hc] at h
      rcases hrec : takeUntilChar stop rest with _ | ⟨pre2, post2⟩
      · rw [hrec] at h
        cases h
      · rw [hrec] at h
        cases h
        have := ih pre2 post hrec
        simp only [List.length_cons]
        omega

/-- Attempt of the regex `\[([^\]]+)\]\(([^\)]+)\)` at the character after
a `[`: non-empty link text up to the first `]`, a literal `(`, non-empty
url up to the first `)`.  Returns (text, url, remainder). -/
def matchLink (l : List Char) : Option (List Char × List Char × List Char) :=
  match takeUntilChar ']' l with
  | none => none
  | some (text, rest1) =>
    if text == [] then none
    else
      match rest1 with
      | [] => none
      | c :: rest2 =>
        if c == '(' then
          match takeUntilChar ')' rest2 with
          | none => none
          | some (url, rest3) => if url == [] then none else some (text, url, rest3)
        else none

lemma matchLink_length (l text url rest3 : List Char)
    (h : matchLink l = some (text, url, rest3)) : rest3.length < l.length := by
  unfold matchLink at h
  split at h
  · cases h
  · rename_i text1 rest1 h1
    split at h
    · cases h
    · rename_i hte
      split at h
      · cases h
      · rename_i c rest2
        split at h
        · split at h
          · cases h
          · rename_i url1 rest4 h2
            split at h
            · cases h
            · cases h
              have hlen1 := takeUntilChar_length ']' l text (c :: rest2) h1
              have hlen2 := takeUntilChar_length ')' rest2 url rest3 h2
              simp only [List.length_cons] at hlen1
              omega
        · cases h

/-- `re.sub` of the link regex: convert the leftmost markdown link to an
HTML anchor; a `[` with no full match is kept. -/
def convertLinks : List Char → List Char
  | [] => []
  | c :: rest =>
    if c == '[' then
      match h : matchLink rest with
      | some (text, url, rest3) =>
          '<' :: 'a' :: ' ' :: 'h' :: 'r' :: 'e' :: 'f' :: '=' :: '"' ::
            (url ++ '"' :: '>' :: (text ++ '<' :: '/' :: 'a' :: '>' :: convertLinks rest3))
      | none => c :: convertLinks rest
    else c :: convertLinks rest
termination_by l => l.length
decreasing_by
  · exact Nat.lt_trans (matchLink_length rest text url rest3 h) (Nat.lt_succ_self _)
  · exact Nat.lt_succ_self _
  · exact Nat.lt_succ_self _

/-- The composition applied by get_assistant_response to the fetched
message text: citation stripping, then bold conversion, then link
conversion. -/
def postprocessResponse (l : List Char) : List Char :=
  convertLinks (convertBold (stripCitations l))

/-- One message of `client.beta.threads.messages.list` (newest first):
its role and the `text.value` of each content item. -/
structure ThreadMessage where
  role : String
  content : List String
  deriving DecidableEq, Repr

/-- The fixed fallback reply of get_assistant_response. -/
def fallbackResponse : String :=
  "Извините, не удалось получить ответ. Пожалуйста, попробуйте еще раз."

/-- ChatGPTAssistant.get_assistant_response: take the first (newest)
assistant-authored message; if it exists and its content list is
non-empty, post-process content[0].text.value, otherwise return the
fallback string unprocessed. -/
def get_assistant_response (messages : List ThreadMessage) : String :=
  match messages.find? (fun m => m.role == "assistant") with
  | some m =>
    match m.content with
    | [] => fallbackResponse
    | v :: _ => ⟨postprocessResponse v.data⟩
  | none => fallbackResponse

/-- Claim C9: the reply fetch returns the fixed fallback string both when
no assistant-authored message exists and when the newest assistant-authored
message has an empty content list; in both cases the fallback constant is
returned as-is, with no post-processing applied. -/
theorem C9_fallback_unprocessed (messages : List ThreadMessage) :
    (messages.find? (fun m => m.role == "assistant") = none →
      get_assistant_response messages = fallbackResponse)
    ∧ ∀ m, messages.find? (fun m => m.role == "assistant") = some m →
        m.content = [] → get_assistant_response messages = fallbackResponse := by
  constructor
  · intro h
    unfold get_assistant_response
    rw [h]
  · intro m h hc
    unfold get_assistant_response
    rw [h]
    dsimp only
    rw [hc]

/-- Witness for C9: a thread whose only messages are user-authored, and a
thread whose newest assistant message has an empty content list. -/
theorem C9_fallback_unprocessed_witness :
    get_assistant_response [⟨"user", ["hi"]⟩] = fallbackResponse
    ∧ get_assistant_response [⟨"user", ["hi"]⟩, ⟨"assistant", []⟩, ⟨"assistant", ["old"]⟩]
        = fallbackResponse :=
  ⟨(C9_fallback_unprocessed [⟨"user", ["hi"]⟩]).1 (by decide),
    (C9_fallback_unprocessed [⟨"user", ["hi"]⟩, ⟨"assistant", []⟩, ⟨"assistant", ["old"]⟩]).2
      ⟨"assistant", []⟩ (by decide) rfl⟩

/-- A character that none of the three post-processing transforms treats
specially. -/
def plainChar (ch : Char) : Prop :=
  ch ≠ '【' ∧ ch ≠ '】' ∧ ch ≠ '*' ∧ ch ≠ '[' ∧ ch ≠ ']' ∧ ch ≠ '(' ∧ ch ≠ ')'

instance (ch : Char) : Decidable (plainChar ch) := by
  unfold plainChar
  infer_instance

lemma plain_not_mem (l : List Char) (hl : ∀ x ∈ l, plainChar x) :
    '【' ∉ l ∧ '】' ∉ l ∧ '*' ∉ l ∧ '[' ∉ l ∧ ']' ∉ l ∧ '(' ∉ l ∧ ')' ∉ l :=
  ⟨fun hm => (hl _ hm).1 rfl, fun hm => (hl _ hm).2.1 rfl,
    fun hm => (hl _ hm).2.2.1 rfl, fun hm => (hl _ hm).2.2.2.1 rfl,
    fun hm => (hl _ hm).2.2.2.2.1 rfl, fun hm => (hl _ hm).2.2.2.2.2.1 rfl,
    fun hm => (hl _ hm).2.2.2.2.2.2 rfl⟩

lemma findCitationClose_append (c r : List Char) (h1 : '】' ∉ c) (h2 : '\n' ∉ c) :
    findCitationClose (c ++ '】' :: r) = some r := by
  induction c with
  | nil => simp [findCitationClose]
  | cons x c ih =>
    have hx1 : x ≠ '】' := fun he => h1 (by simp [he])
    have hx2 : x ≠ '\n' := fun he => h2 (by simp [he])
    have hc1 : '】' ∉ c := fun hm => h1 (by simp [hm])
    have hc2 : '\n' ∉ c := fun hm => h2 (by simp [hm])
    simp only [List.cons_append]
    unfold findCitationClose
    rw [if_neg (by simpa using hx1), if_neg (by simpa using hx2)]
    exact ih hc1 hc2

lemma stripCitations_append (p r : List Char) (hp : '【' ∉ p) :
    stripCitations (p ++ r) = p ++ stripCitations r := by
  induction p with
  | nil => simp
  | cons x p ih =>
    have hx : x ≠ '【' := fun he => hp (by simp [he])
    have hp2 : '【' ∉ p := fun hm => hp (by simp [hm])
    simp only [List.cons_append]
    conv_lhs => unfold stripCitations
    rw [if_neg (by simpa using hx), ih hp2]

lemma stripCitations_of_no_open (p : List Char) (hp : '【' ∉ p) :
    stripCitations p = p := by
  have h := stripCitations_append p [] hp
  rw [List.append_nil] at h
  rw [h]
  simp [stripCitations]

lemma stripCitations_cite (c r : List Char) (h1 : '】' ∉ c) (h2 : '\n' ∉ c) :
    stripCitations ('【' :: (c ++ '】' :: r)) = stripCitations r := by
  conv_lhs => unfold stripCitations
  rw [if_pos (by decide)]
  split
  · rename_i rest2 heq
    rw [findCitationClose_append c r h1 h2] at heq
    cases heq
    rfl
  · rename_i heq
    rw [findCitationClose_append c r h1 h2] at heq
    cases heq

lemma findBoldClose_append :
    ∀ (b r : List Char), '*' ∉ b → '\n' ∉ b →
      findBoldClose (b ++ '*' :: '*' :: r) = some (b, r)
  | [], r, _, _ => by simp [findBoldClose]
  | [x], r, h1, h2 => by
    have hx1 : x ≠ '*' := fun he => h1 (by simp [he])
    have hx2 : x ≠ '\n' := fun he => h2 (by simp [he])
    simp only [List.cons_append, List.nil_append]
    conv_lhs => unfold findBoldClose
    rw [if_neg (by simp [hx1]), if_neg (by simpa using hx2)]
    rw [show findBoldClose ('*' :: '*' :: r) = some ([], r) by simp [findBoldClose]]
  | x :: y :: b, r, h1, h2 => by
    have hx1 : x ≠ '*' := fun he => h1 (by simp [he])
    have hx2 : x ≠ '\n' := fun he => h2 (by simp [he])
    have hb1 : '*' ∉ y :: b := fun hm => h1 (by simp at hm ⊢; tauto)
    have hb2 : '\n' ∉ y :: b := fun hm => h2 (by simp at hm ⊢; tauto)
    simp only [List.cons_append]
    conv_lhs => unfold findBoldClose
    rw [if_neg (by simp [hx1]), if_neg (by simpa using hx2)]
    have ih := findBoldClose_append (y :: b) r hb1 hb2
    simp only [List.cons_append] at ih
    rw [ih]

lemma convertBold_append :
    ∀ (p r : List Char), '*' ∉ p → convertBold (p ++ r) = p ++ convertBold r
  | [], r, _ => by simp
  | [x], r, h => by
    have hx : x ≠ '*' := fun he => h (by simp [he])
    cases r with
    | nil => simp [convertBold]
    | cons y r2 =>
      simp only [List.cons_append, List.nil_append]
      conv_lhs => unfold convertBold
      rw [if_neg (by simp [hx])]
  | x :: y :: p, r, h => by
    have hx : x ≠ '*' := fun he => h (by simp [he])
    have hp2 : '*' ∉ y :: p := fun hm => h (by simp at hm ⊢; tauto)
    simp only [List.cons_append]
    conv_lhs => unfold convertBold
    rw [if_neg (by simp [hx])]
    have ih := convertBold_append (y :: p) r hp2
    simp only [List.cons_append] at ih
    rw [ih]

lemma convertBold_of_no_star (p : List Char) (hp : '*' ∉ p) :
    convertBold p = p := by
  have h := convertBold_append p [] hp
  rw [List.append_nil] at h
  rw [h]
  simp [convertBold]

lemma convertBold_bold (b r : List Char) (h1 : '*' ∉ b) (h2 : '\n' ∉ b) :
    convertBold ('*' :: '*' :: (b ++ '*' :: '*' :: r))
      = '<' :: 'b' :: '>' :: (b ++ '<' :: '/' :: 'b' :: '>' :: convertBold r) := by
  conv_lhs => unfold convertBold
  rw [if_pos (by decide)]
  split
  · rename_i content rest2 heq
    rw [findBoldClose_append b r h1 h2] at heq
    cases heq
    rfl
  · rename_i heq
    rw [findBoldClose_append b r h1 h2] at heq
    cases heq

lemma takeUntilChar_append (stop : Char) (x r : List Char) (hx : stop ∉ x) :
    takeUntilChar stop (x ++ stop :: r) = some (x, r) := by
  induction x with
  | nil => simp [takeUntilChar]
  | cons y x ih =>
    have hy : y ≠ stop := fun he => hx (by simp [he])
    have hx2 : stop ∉ x := fun hm => hx (by simp [hm])
    simp only [List.cons_append]
    conv_lhs => unfold takeUntilChar
    rw [if_neg (by simpa using hy), ih hx2]

lemma matchLink_eq (t u r : List Char) (ht : ']' ∉ t) (htne : t ≠ [])
    (hu : ')' ∉ u) (hune : u ≠ []) :
    matchLink (t ++ ']' :: '(' :: (u ++ ')' :: r)) = some (t, u, r) := by
  unfold matchLink
  rw [takeUntilChar_append ']' t ('(' :: (u ++ ')' :: r)) ht]
  dsimp only
  rw [if_neg (by simpa using htne), if_pos (by decide),
    takeUntilChar_append ')' u r hu]
  dsimp only
  rw [if_neg (by simpa using hune)]

lemma convertLinks_cons (x : Char) (l : List Char) (hx : x ≠ '[') :
    convertLinks (x :: l) = x :: convertLinks l := by
  conv_lhs => unfold convertLinks
  rw [if_neg (by simpa using hx)]

lemma convertLinks_append (p r : List Char) (hp : '[' ∉ p) :
    convertLinks (p ++ r) = p ++ convertLinks r := by
  induction p with
  | nil => simp
  | cons x p ih =>
    have hx : x ≠ '[' := fun he => hp (by simp [he])
    have hp2 : '[' ∉ p := fun hm => hp (by simp [hm])
    simp only [List.cons_append]
    rw [convertLinks_cons x _ hx, ih hp2]

lemma convertLinks_of_no_open (p : List Char) (hp : '[' ∉ p) :
    convertLinks p = p := by
  have h := convertLinks_append p [] hp
  rw [List.append_nil] at h
  rw [h]
  simp [convertLinks]

lemma convertLinks_link (t u r : List Char) (ht : ']' ∉ t) (htne : t ≠ [])
    (hu : ')' ∉ u) (hune : u ≠ []) :
    convertLinks ('[' :: (t ++ ']' :: '(' :: (u ++ ')' :: r)))
      = '<' :: 'a' :: ' ' :: 'h' :: 'r' :: 'e' :: 'f' :: '=' :: '"' ::
          (u ++ '"' :: '>' :: (t ++ '<' :: '/' :: 'a' :: '>' :: convertLinks r)) := by
  conv_lhs => unfold convertLinks
  rw [if_pos (by decide)]
  split
  · rename_i text url rest3 heq
    rw [matchLink_eq t u r ht htne hu hune] at heq
    cases heq
    rfl
  · rename_i heq
    rw [matchLink_eq t u r ht htne hu hune] at heq
    cases heq

/-- Claim C7: for a fetched reply consisting of plain text around one
citation marker pair, one double-star bold span and one markdown link, the
post-processing (citation stripping first, then bold conversion, then link
conversion, as composed in postprocessResponse) removes the citation
marker, converts the bold span to HTML b tags, converts the link to an
HTML anchor, and leaves all surrounding plain text byte-identical. -/
theorem C7_postprocessing_round_trip (p0 c p1 b p2 t u p3 : List Char)
    (hp0 : ∀ x ∈ p0, plainChar x) (hp1 : ∀ x ∈ p1, plainChar x)
    (hp2 : ∀ x ∈ p2, plainChar x) (hp3 : ∀ x ∈ p3, plainChar x)
    (hc1 : '】' ∉ c) (hc2 : '\n' ∉ c)
    (hb : ∀ x ∈ b, plainChar x) (hbn : '\n' ∉ b)
    (ht : ∀ x ∈ t, plainChar x) (htne : t ≠ [])
    (hu : ∀ x ∈ u, plainChar x) (hune : u ≠ []) :
    postprocessResponse
        (p0 ++ '【' :: (c ++ '】' :: (p1 ++ '*' :: '*' :: (b ++ '*' :: '*' ::
          (p2 ++ '[' :: (t ++ ']' :: '(' :: (u ++ ')' :: p3)))))))
      = p0 ++ (p1 ++ '<' :: 'b' :: '>' :: (b ++ '<' :: '/' :: 'b' :: '>' ::
          (p2 ++ '<' :: 'a' :: ' ' :: 'h' :: 'r' :: 'e' :: 'f' :: '=' :: '"' ::
            (u ++ '"' :: '>' :: (t ++ '<' :: '/' :: 'a' :: '>' :: p3))))) := by
  obtain ⟨n0a, n0b, n0c, n0d, n0e, n0f, n0g⟩ := plain_not_mem p0 hp0
  obtain ⟨n1a, n1b, n1c, n1d, n1e, n1f, n1g⟩ := plain_not_mem p1 hp1
  obtain ⟨n2a, n2b, n2c, n2d, n2e, n2f, n2g⟩ := plain_not_mem p2 hp2
  obtain ⟨n3a, n3b, n3c, n3d, n3e, n3f, n3g⟩ := plain_not_mem p3 hp3
  obtain ⟨nba, nbb, nbc, nbd, nbe, nbf, nbg⟩ := plain_not_mem b hb
  obtain ⟨nta, ntb, ntc, ntd, nte, ntf, ntg⟩ := plain_not_mem t ht
  obtain ⟨nua, nub, nuc, nud, nue, nuf, nug⟩ := plain_not_mem u hu
  have hno1 : '【' ∉ (p1 ++ '*' :: '*' :: (b ++ '*' :: '*' ::
      (p2 ++ '[' :: (t ++ ']' :: '(' :: (u ++ ')' :: p3))))) := by
    simp [List.mem_append, List.mem_cons, n1a, n2a, n3a, nba, nta, nua]
  have hnostar : '*' ∉ (p2 ++ '[' :: (t ++ ']' :: '(' :: (u ++ ')' :: p3))) := by
    simp [List.mem_append, List.mem_cons, n2c, n3c, ntc, nuc]
  unfold postprocessResponse
  rw [stripCitations_append p0 _ n0a, stripCitations_cite c _ hc1 hc2,
    stripCitations_of_no_open _ hno1]
  rw [convertBold_append p0 _ n0c, convertBold_append p1 _ n1c,
    convertBold_bold b _ nbc hbn, convertBold_of_no_star _ hnostar]
  rw [convertLinks_append p0 _ n0d, convertLinks_append p1 _ n1d,
    convertLinks_cons '<' _ (by decide), convertLinks_cons 'b' _ (by decide),
    convertLinks_cons '>' _ (by decide), convertLinks_append b _ nbd,
    convertLinks_cons '<' _ (by decide), convertLinks_cons '/' _ (by decide),
    convertLinks_cons 'b' _ (by decide), convertLinks_cons '>' _ (by decide),
    convertLinks_append p2 _ n2d, convertLinks_link t u p3 nte htne nug hune,
    convertLinks_of_no_open p3 n3d]

/-- Witness for C7 at a concrete reply text. -/
theorem C7_postprocessing_round_trip_witness :
    postprocessResponse
        ("x ".data ++ '【' :: ("cite".data ++ '】' :: (" y ".data ++ '*' :: '*' ::
          ("B".data ++ '*' :: '*' ::
          (" z ".data ++ '[' :: ("link".data ++ ']' :: '(' ::
            ("url".data ++ ')' :: " w".data)))))))
      = "x ".data ++ (" y ".data ++ '<' :: 'b' :: '>' :: ("B".data ++ '<' :: '/' :: 'b' :: '>' ::
          (" z ".data ++ '<' :: 'a' :: ' ' :: 'h' :: 'r' :: 'e' :: 'f' :: '=' :: '"' ::
            ("url".data ++ '"' :: '>' :: ("link".data ++ '<' :: '/' :: 'a' :: '>' :: " w".data))))) :=
  C7_postprocessing_round_trip "x ".data "cite".data " y ".data "B".data " z ".data
    "link".data "url".data " w".data
    (by decide) (by decide) (by decide) (by decide) (by decide) (by decide)
    (by decide) (by decide) (by decide) (by decide) (by decide) (by decide)

/-! Model of the run lifecycle in ChatGPTAssistant
(`src/chatgpt_assistant.py`).  The OpenAI client is an oracle: `polls i`
is the status (a string, as in the Python code) returned by the i-th
`runs.retrieve` call within one `get_response` invocation, together with
the tool calls attached when that status is "requires_action";
`messages` is the thread content seen by the final reply fetch.
Exceptions are modelled with `Except`: the `json.loads` failure inside
the contact-info tool call is the one error that propagates; every
side-effect failure inside send_contact_notification is swallowed there
(the email dispatch has no observable state effect, so only the marker
save appears in the model). -/

/-- The payload parsed by `json.loads(tool_call.function.arguments)`;
`none` in `argumentsParse` models arguments on which json.loads raises. -/
abbrev ContactInfo := List (String × String)

/-- One tool call of a run in `requires_action` state. -/
structure ToolCall where
  id : String
  functionName : String
  argumentsParse : Option ContactInfo
  deriving DecidableEq, Repr

/-- One `runs.retrieve` answer: the run status string, and the attached
tool calls when the status is "requires_action". -/
structure PollResult where
  status : String
  toolCalls : List ToolCall

/-- Oracles for send_contact_notification's side effects: the bot's
usernames cache, whether the SMTP credentials are configured (the
function returns early otherwise), and whether the marker save inside
email_service.send_telegram_dialog_email succeeds (its failure is caught
there). -/
structure NotifyEnv where
  usernames : Int → Option String
  smtp_configured : Bool
  marker_save_ok : Bool

/-- Database.get_dialog: role/message pairs of the user's dialog rows. -/
def get_dialog (db : DBState) (user_id : Int) : List (String × String) :=
  (db.dialogs.filter (fun d => d.user_id == user_id)).map (fun d => (d.role, d.message))

/-- ChatGPTAssistant.send_contact_notification: resolve the display name
(falling back to str(user_id)), read the dialog, and delegate to
email_service.send_telegram_dialog_email, which saves the
successful-dialog marker (catching any error) and sends the email
(catching any error).  The whole body is wrapped in try/except, so this
never raises; the serialized payloads model json.dumps. -/
def send_contact_notification (env : NotifyEnv) (db : DBState) (user_id : Int)
    (contact_info : ContactInfo) : DBState :=
  let username := (env.usernames user_id).getD (toString user_id)
  let dialog_text := get_dialog db user_id
  if contact_info == [] then db
  else if !env.smtp_configured then db
  else if env.marker_save_ok then
    save_successful_dialog db user_id username (toString contact_info) (toString dialog_text)
  else db

/-- A tool output row submitted back via submit_tool_outputs. -/
structure ToolOutput where
  tool_call_id : String
  output : String
  deriving DecidableEq, Repr

/-- The json.dumps-ed success payload of process_contact_info_tool_call. -/
def contactToolSuccessOutput : String :=
  "\x7b\"status\": \"success\", \"message\": \"Contact information saved and notification sent\"\x7d"

/-- The one kind of error that escapes a Send call from the tool layer. -/
inductive SendError where
  | json_parse_error
  deriving DecidableEq, Repr

/-- ChatGPTAssistant.process_contact_info_tool_call: json.loads the
arguments — a malformed payload raises, modelled as `Except.error`, and
is NOT caught anywhere below get_response — then the best-effort
notification, then the fixed success output. -/
def process_contact_info_tool_call (env : NotifyEnv) (db : DBState)
    (tool_call : ToolCall) (user_id : Int) :
    Except SendError (DBState × ToolOutput) :=
  match tool_call.argumentsParse with
  | none => .error .json_parse_error
  | some contact_info =>
    let db2 := send_contact_notification env db user_id contact_info
    .ok (db2, ⟨tool_call.id, contactToolSuccessOutput⟩)

/-- The loop of ChatGPTAssistant.handle_required_action over the run's
tool calls: only "get_client_contact_info" is processed; any other tool
name is ignored (no output emitted for it). -/
def handle_tool_calls (env : NotifyEnv) (user_id : Int) :
    DBState → List ToolCall → Except SendError (DBState × List ToolOutput)
  | db, [] => .ok (db, [])
  | db, tc :: rest =>
    if tc.functionName == "get_client_contact_info" then
      match process_contact_info_tool_call env db tc user_id with
      | .error e => .error e
      | .ok (db2, out) =>
        match handle_tool_calls env user_id db2 rest with
        | .error e => .error e
        | .ok (db3, outs) => .ok (db3, out :: outs)
    else handle_tool_calls env user_id db rest

/-- The environment of one get_response call: the poll oracle, the thread
messages seen by the final fetch, and the notification oracles. -/
structure RunEnv where
  polls : Nat → PollResult
  messages : List ThreadMessage
  notify : NotifyEnv

/-- The retry ceiling hard-coded in ChatGPTAssistant.process_run. -/
def max_retries : Nat := 3

/-- ChatGPTAssistant.process_run: poll the run; on "requires_action"
handle the tool calls and resubmit, then keep polling; on "completed"
fetch the reply; on "failed"/"cancelled"/"expired" start a new run
(counted in the second component) while retry_count < max_retries, else
fetch the reply best-effort; on any other status sleep and poll again.
`fuel` bounds the unbounded Python while-loop; `none` models a
non-terminating poll sequence. -/
def process_run (env : RunEnv) (user_id : Int) :
    DBState → Nat → Nat → Nat → Option (Except SendError (String × Nat × DBState))
  | _db, _pollIdx, _retry_count, 0 => none
  | db, pollIdx, retry_count, fuel + 1 =>
    let pr := env.polls pollIdx
    if pr.status == "requires_action" then
      match handle_tool_calls env.notify user_id db pr.toolCalls with
      | .error e => some (.error e)
      | .ok (db2, _outs) => process_run env user_id db2 (pollIdx + 1) retry_count fuel
    else if pr.status == "completed" then
      some (.ok (get_assistant_response env.messages, 0, db))
    else if ["failed", "cancelled", "expired"].contains pr.status then
      if retry_count < max_retries then
        match process_run env user_id db (pollIdx + 1) (retry_count + 1) fuel with
        | some (.ok (reply, starts, db2)) => some (.ok (reply, starts + 1, db2))
        | other => other
      else
        some (.ok (get_assistant_response env.messages, 0, db))
    else
      process_run env user_id db (pollIdx + 1) retry_count fuel

/-- ChatGPTAssistant.get_response: append the user message to the remote
thread, create the initial run (one run start, counted here) and drive
process_run with retry_count = 0. -/
def get_response (env : RunEnv) (db : DBState) (user_id : Int) (fuel : Nat) :
    Option (Except SendError (String × Nat × DBState)) :=
  match process_run env user_id db 0 0 fuel with
  | some (.ok (reply, starts, db2)) => some (.ok (reply, starts + 1, db2))
  | other => other

lemma process_run_all_failed (env : RunEnv) (user_id : Int)
    (hfail : ∀ i, ["failed", "cancelled", "expired"].contains (env.polls i).status = true) :
    ∀ (fuel : Nat) (db : DBState) (pollIdx retry_count : Nat),
      retry_count ≤ max_retries → max_retries - retry_count < fuel →
      process_run env user_id db pollIdx retry_count fuel
        = some (.ok (get_assistant_response env.messages,
            max_retries - retry_count, db)) := by
  intro fuel
  induction fuel with
  | zero =>
    intro db pollIdx retry_count h1 h2
    omega
  | succ fuel ih =>
    intro db pollIdx retry_count h1 h2
    have h3 := hfail pollIdx
    have hdis : (env.polls pollIdx).status = "failed"
        ∨ (env.polls pollIdx).status = "cancelled"
        ∨ (env.polls pollIdx).status = "expired" := by
      simpa using h3
    have hra : ¬ ((env.polls pollIdx).status == "requires_action") = true := by
      rcases hdis with h | h | h <;> simp [h]
    have hco : ¬ ((env.polls pollIdx).status == "completed") = true := by
      rcases hdis with h | h | h <;> simp [h]
    unfold process_run
    rw [if_neg hra, if_neg hco, if_pos h3]
    by_cases hrc : retry_count < max_retries
    · rw [if_pos hrc]
      rw [ih db (pollIdx + 1) (retry_count + 1) (by omega) (by omega)]
      dsimp only
      rw [show max_retries - (retry_count + 1) + 1 = max_retries - retry_count from by omega]
    · rw [if_neg hrc]
      rw [show max_retries - retry_count = 0 from by omega]

/-- Claim C1: when every status poll returns a terminal failure status,
get_response performs exactly max_retries + 1 = 4 run starts (the initial
run plus 3 retries on the same thread) and then returns the best-effort
reply fetch instead of an error. -/
theorem C1_retry_bound (env : RunEnv) (db : DBState) (user_id : Int) (fuel : Nat)
    (hfail : ∀ i, ["failed", "cancelled", "expired"].contains (env.polls i).status = true)
    (hfuel : max_retries < fuel) :
    get_response env db user_id fuel
      = some (.ok (get_assistant_response env.messages, max_retries + 1, db)) := by
  unfold get_response
  rw [process_run_all_failed env user_id hfail fuel db 0 0 (by omega) (by omega)]
  dsimp only
  rw [show max_retries - 0 + 1 = max_retries + 1 from by omega]

/-- Witness for C1: a run whose every poll reports "failed"; the fetch
finds no assistant message, so the reply is the fallback string, after
exactly 4 run starts. -/
theorem C1_retry_bound_witness :
    get_response ⟨fun _ => ⟨"failed", []⟩, [], ⟨fun _ => none, true, true⟩⟩
        ⟨[], [], []⟩ 1 4
      = some (.ok (fallbackResponse, 4, ⟨[], [], []⟩)) := by
  have h := C1_retry_bound ⟨fun _ => ⟨"failed", []⟩, [], ⟨fun _ => none, true, true⟩⟩
    ⟨[], [], []⟩ 1 4 (fun _ => rfl) (by decide)
  simpa [get_assistant_response, max_retries] using h

/-- Claim C8: a malformed JSON payload on the recognized contact-capture
tool call makes the whole get_response call fail with the parse error
(not swallowed), while with a well-formed payload the tool call reports
the fixed success output whatever happens to the marker save or the
notification dispatch (their failures are swallowed inside
send_contact_notification). -/
theorem C8_tool_error_handling (env : RunEnv) (db : DBState) (user_id : Int)
    (tc : ToolCall) (fuel : Nat)
    (hname : tc.functionName = "get_client_contact_info")
    (hpoll : (env.polls 0).status = "requires_action")
    (hcalls : (env.polls 0).toolCalls = [tc])
    (hfuel : 0 < fuel) :
    (tc.argumentsParse = none →
      get_response env db user_id fuel = some (.error .json_parse_error))
    ∧ ∀ info, tc.argumentsParse = some info →
        ∀ (ntf : NotifyEnv) (db2 : DBState),
          process_contact_info_tool_call ntf db2 tc user_id
            = .ok (send_contact_notification ntf db2 user_id info,
                ⟨tc.id, contactToolSuccessOutput⟩) := by
  constructor
  · intro hparse
    match fuel, hfuel with
    | fuel + 1, _ =>
      unfold get_response process_run
      dsimp only
      rw [if_pos (by simp [hpoll]), hcalls]
      unfold handle_tool_calls
      rw [if_pos (by simp [hname])]
      unfold process_contact_info_tool_call
      rw [hparse]
  · intro info hparse ntf db2
    unfold process_contact_info_tool_call
    rw [hparse]

/-- Witness for C8: a malformed contact-info payload aborts the whole
call with the parse error; a well-formed one reports success even though
both SMTP configuration and the marker save fail. -/
theorem C8_tool_error_handling_witness :
    get_response ⟨fun _ => ⟨"requires_action", [⟨"c1", "get_client_contact_info", none⟩]⟩,
        [], ⟨fun _ => none, false, false⟩⟩ ⟨[], [], []⟩ 1 1
      = some (.error .json_parse_error)
    ∧ process_contact_info_tool_call ⟨fun _ => none, false, false⟩ ⟨[], [], []⟩
        ⟨"c2", "get_client_contact_info", some [("name", "Bob")]⟩ 1
      = .ok (send_contact_notification ⟨fun _ => none, false, false⟩ ⟨[], [], []⟩ 1
          [("name", "Bob")], ⟨"c2", contactToolSuccessOutput⟩) :=
  ⟨(C8_tool_error_handling
      ⟨fun _ => ⟨"requires_action", [⟨"c1", "get_client_contact_info", none⟩]⟩,
        [], ⟨fun _ => none, false, false⟩⟩ ⟨[], [], []⟩ 1
      ⟨"c1", "get_client_contact_info", none⟩ 1 rfl rfl rfl (by decide)).1 rfl,
    (C8_tool_error_handling
      ⟨fun _ => ⟨"requires_action", [⟨"c2", "get_client_contact_info",
          some [("name", "Bob")]⟩]⟩, [], ⟨fun _ => none, false, false⟩⟩ ⟨[], [], []⟩ 1
      ⟨"c2", "get_client_contact_info", some [("name", "Bob")]⟩ 1 rfl rfl rfl
      (by decide)).2 [("name", "Bob")] rfl ⟨fun _ => none, false, false⟩ ⟨[], [], []⟩⟩

end MainBot
